import Mathlib

/-!
Verification development for the incremental-rebuild core of the reptar
static-site generator.  The definitions below are a shallow embedding of
`src/bin/watch.js` (the event-to-action dispatcher) together with the
test-fixture helpers of `src/test/fixtures/index.js` and the
convention-based package resolver exercised by `src/test/unit/json.spec.js`.
-/

/-- The two watch sessions opened by `src/bin/watch.js`: `watcher` rooted at
the source directory and `themeWatcher` rooted at the themes directory. -/
inductive Session where
  | source
  | theme
deriving DecidableEq, Repr

/-- Event kinds delivered by a chokidar watch session.  `ready` fires once
when the initial directory scan is complete; `add`, `change` and `unlink`
are the per-file events that `watch.js` may subscribe to. -/
inductive EKind where
  | ready
  | add
  | change
  | unlink
deriving DecidableEq, Repr

/-- A filesystem event as delivered to the dispatcher: which session emitted
it, its kind, and the affected path. -/
structure WEvent where
  session : Session
  kind : EKind
  path : String
deriving DecidableEq, Repr

/-- The site actions that `watch.js` can invoke on the long-lived `yarn`
site instance. -/
inductive SiteCall where
  | readFiles
  | fileAdded (p : String)
  | fileChanged (p : String)
  | fileRemoved (p : String)
  | readTheme
  | build
deriving DecidableEq, Repr

/-- Dispatcher state: whether each session has fired `ready`, which is the
moment `watch.js` registers that session's per-event handlers.  Nothing in
`watch.js` ever unregisters a handler, so the flags only go from `false`
to `true`. -/
structure DState where
  sourceHandlersRegistered : Bool
  themeHandlersRegistered : Bool
deriving DecidableEq, Repr

/-- State of the dispatcher immediately after the module body of
`watch.js` has run: neither session has fired `ready` yet, so no
per-event handler is registered. -/
def initState : DState :=
  { sourceHandlersRegistered := false, themeHandlersRegistered := false }

/-- The promise chain (sequential task) that the handler registered for a
given event starts, as a list of site calls executed in order.  Embeds the
handler bodies of `watch.js`:
source `change` runs `yarn.fileChanged(path)`, source `add` runs
`yarn.fileAdded(path)`, source `unlink` runs `yarn.fileRemoved(path)`, and
theme `change` runs `yarn.readTheme().then(function() { return yarn.build(); })`.
An event whose session has not fired `ready` has no handler registered and
so starts no task; the theme watcher registers no `add` or `unlink`
handler at all. -/
def handlerTask (s : DState) (e : WEvent) : List SiteCall :=
  match e.session, e.kind with
  | Session.source, EKind.ready => []
  | Session.source, EKind.change =>
      if s.sourceHandlersRegistered then [SiteCall.fileChanged e.path] else []
  | Session.source, EKind.add =>
      if s.sourceHandlersRegistered then [SiteCall.fileAdded e.path] else []
  | Session.source, EKind.unlink =>
      if s.sourceHandlersRegistered then [SiteCall.fileRemoved e.path] else []
  | Session.theme, EKind.ready => []
  | Session.theme, EKind.change =>
      if s.themeHandlersRegistered then [SiteCall.readTheme, SiteCall.build] else []
  | Session.theme, EKind.add => []
  | Session.theme, EKind.unlink => []

/-- State transition of the dispatcher on one event.  Only the two `ready`
events change the state (they register the per-event handlers); the
per-event handlers themselves never alter which handlers are registered,
and in particular an action failure never unregisters anything. -/
def stepState (s : DState) (e : WEvent) : DState :=
  match e.session, e.kind with
  | Session.source, EKind.ready => { s with sourceHandlersRegistered := true }
  | Session.theme, EKind.ready => { s with themeHandlersRegistered := true }
  | _, _ => s

/-- Execution of a promise chain under an outcome assignment: each call is
started in order, and because `watch.js` chains with `.then` and never
`.catch`, the rest of the chain is started only when the call resolves
(`outcome c = true`); a rejection abandons the rest of the chain.  The
result records each call that actually started together with its
outcome. -/
def runTask (outcome : SiteCall → Bool) : List SiteCall → List (SiteCall × Bool)
  | [] => []
  | c :: rest =>
      (c, outcome c) :: (if outcome c then runTask outcome rest else [])

/-- Dispatch of a whole event trace: each event starts its handler's task
(possibly empty) and updates the dispatcher state; the produced site calls
are concatenated in dispatch order.  Outcomes of the calls are not
consulted here because `watch.js` never feeds an action's outcome back
into handler registration. -/
def runEvents (s : DState) : List WEvent → List SiteCall
  | [] => []
  | e :: rest => handlerTask s e ++ runEvents (stepState s e) rest

/-- Dispatch and execution of a whole event trace under an outcome
assignment: like `runEvents`, but each handler task is executed with
`runTask`, recording which calls started and whether they resolved. -/
def runEventsExec (outcome : SiteCall → Bool) (s : DState) :
    List WEvent → List (SiteCall × Bool)
  | [] => []
  | e :: rest =>
      runTask outcome (handlerTask s e) ++ runEventsExec outcome (stepState s e) rest

/-- Which calls are the source session's per-file actions. -/
def isSourceAction : SiteCall → Bool
  | SiteCall.fileAdded _ => true
  | SiteCall.fileChanged _ => true
  | SiteCall.fileRemoved _ => true
  | _ => false

/-- Which calls are the theme session's actions. -/
def isThemeAction : SiteCall → Bool
  | SiteCall.readTheme => true
  | SiteCall.build => true
  | _ => false

/-- Observable effects of running the module body of `watch.js` once,
parameterised by whether the initial `yarn.readFiles()` eventually fails.
The body calls `readFiles` (whose `.catch` logs the stack and rethrows,
yielding an unhandled rejection), then unconditionally and synchronously
creates both chokidar watchers and registers each one's `ready` handler;
none of those steps waits for the `readFiles` promise to settle, so they
happen whether or not it later fails. -/
structure StartupResult where
  readFilesInvoked : Bool
  readFilesFailureRethrown : Bool
  sourceWatcherCreated : Bool
  themeWatcherCreated : Bool
  sourceReadyHandlerRegistered : Bool
  themeReadyHandlerRegistered : Bool
deriving DecidableEq, Repr

/-- Run the module body of `watch.js`, given whether the initial
`readFiles` call fails.  Watcher creation and `ready`-handler registration
are unconditional statements executed synchronously after the `readFiles`
call is issued, so they do not depend on its outcome. -/
def runStartup (readFilesFails : Bool) : StartupResult :=
  { readFilesInvoked := true
  , readFilesFailureRethrown := readFilesFails
  , sourceWatcherCreated := true
  , themeWatcherCreated := true
  , sourceReadyHandlerRegistered := true
  , themeReadyHandlerRegistered := true }

/-- Membership test on a list of strings, comparing by the underlying
character lists (so it computes inside the kernel). -/
def elemStr (n : String) : List String → Bool
  | [] => false
  | m :: t => n.data == m.data || elemStr n t

/-- Keep-first deduplication with an accumulator of names already seen,
mirroring insertion into a JS `Set`. -/
def dedupAux (seen : List String) : List String → List String
  | [] => []
  | n :: t => if elemStr n seen then dedupAux seen t
              else n :: dedupAux (n :: seen) t

/-- Keep-first deduplication of a list of names (JS `Set` semantics). -/
def dedupFirst (l : List String) : List String :=
  dedupAux [] l

/-- Modelled from the spec: the package resolver `getYarnPackageNames` of
`lib/json.js`, which is not present under `src/` (only its test
`src/test/unit/json.spec.js` and its caller in the fixtures are).  Per the
spec it merges the manifest's runtime and development dependency name
lists (a missing list is passed as the empty list) and keeps exactly the
names that start with the convention prefix `pfx` and are strictly longer
than it, with set semantics on the result. -/
def getYarnPackageNames (pfx : String) (runtimeDeps devDeps : List String) :
    List String :=
  dedupFirst ((runtimeDeps ++ devDeps).filter
    (fun n => pfx.data.isPrefixOf n.data && decide (pfx.data.length < n.data.length)))

/-- Modelled from the spec: the path-containment ignore rule that the watch
session applies via its ignore configuration (the containment semantics
live in the external watch library, not under `src/`).  A path is ignored
iff it equals an ignored root or lies under one with a path-separator
aligned boundary. -/
def isUnderIgnoredRoot (p : String) (roots : List String) : Bool :=
  roots.any (fun r => p.data == r.data || (r.data ++ ['/']).isPrefixOf p.data)

/-- Modelled from the spec: the source watch session surfaces an event to
its handlers only when the event's path is not under one of the ignored
roots (`config.path.plugins`, `config.path.themes`,
`config.path.destination` in `watch.js`); an ignored event is discarded
before any handler runs. -/
def sourceSessionTask (roots : List String) (s : DState) (e : WEvent) :
    List SiteCall :=
  if isUnderIgnoredRoot e.path roots then [] else handlerTask s e

/-- Options object accepted by `mirrorPathsToContent` in
`src/test/fixtures/index.js`.  The function documents and reads only
`options.mapKey`; `msapKey` is the misspelled field that `mockSimpleSite`
sets on its npm-module branch, which `mirrorPathsToContent` never
consults. -/
structure MirrorOptions where
  mapKey : Option (String → String) := none
  msapKey : Option (String → String) := none

/-- Embeds `mirrorPathsToContent` of `src/test/fixtures/index.js`: given an
array of paths it builds the mapping from `mapKey(fullPath)` (defaulting
to the identity when `options.mapKey` is absent) to the file's contents,
here supplied by the `content` function in place of `fs.readFileSync`. -/
def mirrorPathsToContent (content : String → String) (paths : List String)
    (options : MirrorOptions) : List (String × String) :=
  let mk := options.mapKey.getD id
  paths.map (fun p => (mk p, content p))

/-- What remains of `s` after the last occurrence of `pat`, or `none` when
`pat` does not occur in `s`. -/
def afterLastOcc : List Char → List Char → Option (List Char)
  | [], pat => if pat.isPrefixOf ([] : List Char) then some [] else none
  | c :: t, pat =>
      match afterLastOcc t pat with
      | some r => some r
      | none => if pat.isPrefixOf (c :: t) then some ((c :: t).drop pat.length)
                else none

/-- Embeds the key-rewrite function passed (under the misspelled name
`msapKey`) on the npm-module branch of `mockSimpleSite`:
`currentPath.replace(/(.*)node_modules/, 'node_modules')` replaces
everything up to and including the last occurrence of `node_modules`
(the capture is greedy) by the literal `node_modules`, and leaves a path
without that substring unchanged. -/
def npmKeyRewrite (p : String) : String :=
  match afterLastOcc p.data "node_modules".data with
  | none => p
  | some rest => String.mk ("node_modules".data ++ rest)

/-- Embeds the npm-module mirroring branch of `mockSimpleSite` in
`src/test/fixtures/index.js`: it calls `mirrorPathsToContent` with an
options object whose only field is the misspelled `msapKey`, so
`options.mapKey` is absent. -/
def npmMocks (content : String → String) (npmPaths : List String) :
    List (String × String) :=
  mirrorPathsToContent content npmPaths { msapKey := some npmKeyRewrite }

/-- Whether `pat` occurs as a contiguous sublist of `s`. -/
def containsSub : List Char → List Char → Bool
  | [], pat => pat.isPrefixOf ([] : List Char)
  | c :: t, pat => pat.isPrefixOf (c :: t) || containsSub t pat

/-- Whether `pat` occurs as a substring of `s` (the effect of the JS
regex test `s.match(/pat/)` for a literal pattern). -/
def containsSubstr (s pat : String) : Bool :=
  containsSub s.data pat.data

/-- Embeds `filterOnlyFiles` of `src/test/fixtures/index.js`: keeps exactly
the entries whose key matches the regex `/\.(html)/`, i.e. contains the
substring `.html`, with values unchanged. -/
def filterOnlyFiles (files : List (String × String)) : List (String × String) :=
  files.filter (fun kv => containsSubstr kv.1 ".html")

/-- A name tests as an element of a list of names exactly when it is a
member of the list. -/
theorem elemStr_iff (n : String) : ∀ l : List String, elemStr n l = true ↔ n ∈ l := by
  intro l
  induction l with
  | nil => simp [elemStr]
  | cons m t ih =>
      simp [elemStr, ih, List.mem_cons, String.ext_iff]

/-- Membership in `dedupAux`: an element of the output is an element of the
input that is not among the names already seen. -/
theorem mem_dedupAux (n : String) :
    ∀ (l seen : List String),
      n ∈ dedupAux seen l ↔ (n ∈ l ∧ elemStr n seen = false) := by
  intro l
  induction l with
  | nil => simp [dedupAux]
  | cons m t ih =>
      intro seen
      by_cases h : elemStr m seen = true
      · simp only [dedupAux, h, if_true, ih seen, List.mem_cons]
        constructor
        · rintro ⟨h1, h2⟩
          exact ⟨Or.inr h1, h2⟩
        · rintro ⟨h1, h2⟩
          rcases h1 with h1 | h1
          · subst h1
            rw [h] at h2
            cases h2
          · exact ⟨h1, h2⟩
      · rw [Bool.not_eq_true] at h
        have hc : ¬(elemStr m seen = true) := by simp [h]
        simp only [dedupAux, if_neg hc, List.mem_cons]
        rw [ih (m :: seen)]
        simp only [elemStr, Bool.or_eq_false_iff, beq_eq_false_iff_ne, ne_eq,
          ← String.ext_iff]
        by_cases hnm : n = m
        · subst hnm
          simp [h]
        · simp [hnm]

/-- Keep-first deduplication preserves membership. -/
theorem mem_dedupFirst (n : String) (l : List String) :
    n ∈ dedupFirst l ↔ n ∈ l := by
  simp [dedupFirst, mem_dedupAux, elemStr]

/-- The substring test agrees with contiguous-sublist containment. -/
theorem containsSub_iff (pat : List Char) : ∀ s : List Char,
    containsSub s pat = true ↔ pat <:+: s := by
  intro s
  induction s with
  | nil => simp [containsSub, List.isPrefixOf_iff_prefix]
  | cons c t ih =>
      simp [containsSub, List.isPrefixOf_iff_prefix, ih, List.infix_cons_iff]

/-- When the source session's handlers are not registered, an event's task
is either empty or the theme session's `readTheme`-then-`build` chain. -/
theorem handlerTask_source_false (s : DState) (e : WEvent)
    (hs : s.sourceHandlersRegistered = false) :
    handlerTask s e = [] ∨
      handlerTask s e = [SiteCall.readTheme, SiteCall.build] := by
  rcases e with ⟨sess, k, p⟩
  cases sess <;> cases k <;> simp [handlerTask, hs]

/-- When the theme session's handlers are not registered, an event's task
is either empty or a single source per-file action. -/
theorem handlerTask_theme_false (s : DState) (e : WEvent)
    (ht : s.themeHandlersRegistered = false) :
    handlerTask s e = [] ∨
      ∃ c, handlerTask s e = [c] ∧ isThemeAction c = false := by
  rcases e with ⟨sess, k, p⟩
  cases sess <;> cases k <;> simp [handlerTask, ht]
  all_goals
    by_cases hs : s.sourceHandlersRegistered = true <;>
      simp [hs, isThemeAction]

/-- An event that is not the source session's `ready` signal leaves the
source handler-registration flag untouched. -/
theorem stepState_source_false (s : DState) (e : WEvent)
    (hs : s.sourceHandlersRegistered = false)
    (h : e.session = Session.source → e.kind ≠ EKind.ready) :
    (stepState s e).sourceHandlersRegistered = false := by
  rcases e with ⟨sess, k, p⟩
  cases sess <;> cases k <;> simp_all [stepState]

/-- An event that is not the theme session's `ready` signal leaves the
theme handler-registration flag untouched. -/
theorem stepState_theme_false (s : DState) (e : WEvent)
    (ht : s.themeHandlersRegistered = false)
    (h : e.session = Session.theme → e.kind ≠ EKind.ready) :
    (stepState s e).themeHandlersRegistered = false := by
  rcases e with ⟨sess, k, p⟩
  cases sess <;> cases k <;> simp_all [stepState]

/-- A trace containing no source `ready` signal, started with source
handlers unregistered, dispatches no source per-file action. -/
theorem runEvents_no_source_action : ∀ (es : List WEvent) (s : DState),
    s.sourceHandlersRegistered = false →
    (∀ e ∈ es, e.session = Session.source → e.kind ≠ EKind.ready) →
    ∀ c ∈ runEvents s es, isSourceAction c = false := by
  intro es
  induction es with
  | nil => intro s _ _ c hc; cases hc
  | cons e rest ih =>
      intro s hs hev c hc
      simp only [runEvents, List.mem_append] at hc
      rcases hc with hc | hc
      · rcases handlerTask_source_false s e hs with h0 | h0
        · rw [h0] at hc; cases hc
        · rw [h0] at hc
          simp only [List.mem_cons, List.not_mem_nil, or_false] at hc
          rcases hc with rfl | rfl <;> rfl
      · exact ih (stepState s e)
          (stepState_source_false s e hs (hev e (by simp)))
          (fun e' he' => hev e' (by simp [he'])) c hc

/-- A trace containing no theme `ready` signal, started with theme
handlers unregistered, dispatches no theme action. -/
theorem runEvents_no_theme_action : ∀ (es : List WEvent) (s : DState),
    s.themeHandlersRegistered = false →
    (∀ e ∈ es, e.session = Session.theme → e.kind ≠ EKind.ready) →
    ∀ c ∈ runEvents s es, isThemeAction c = false := by
  intro es
  induction es with
  | nil => intro s _ _ c hc; cases hc
  | cons e rest ih =>
      intro s ht hev c hc
      simp only [runEvents, List.mem_append] at hc
      rcases hc with hc | hc
      · rcases handlerTask_theme_false s e ht with h0 | ⟨c0, h0, hc0⟩
        · rw [h0] at hc; cases hc
        · rw [h0] at hc
          simp only [List.mem_singleton] at hc
          rw [hc]
          exact hc0
      · exact ih (stepState s e)
          (stepState_theme_false s e ht (hev e (by simp)))
          (fun e' he' => hev e' (by simp [he'])) c hc

/-- Once both sessions' handlers are registered, no further event changes
the dispatcher state: nothing in `watch.js` ever unregisters a handler. -/
theorem stepState_full (e : WEvent) :
    stepState { sourceHandlersRegistered := true, themeHandlersRegistered := true } e =
      { sourceHandlersRegistered := true, themeHandlersRegistered := true } := by
  rcases e with ⟨sess, k, p⟩
  cases sess <;> cases k <;> rfl

/-- C1 (counterexample): the claim that every theme-session event kind
provokes the theme-reload-then-rebuild response is false: with both
sessions' handlers registered, an `add` event on the theme session starts
no site action at all, because `themeWatcher` registers only a `change`
handler. -/
theorem themeWatcher_add_no_action :
    handlerTask { sourceHandlersRegistered := true, themeHandlersRegistered := true }
      { session := Session.theme, kind := EKind.add, path := "/themes/one/new.html" } = [] ∧
    SiteCall.readTheme ∉ handlerTask
      { sourceHandlersRegistered := true, themeHandlersRegistered := true }
      { session := Session.theme, kind := EKind.add, path := "/themes/one/new.html" } := by
  exact ⟨rfl, by simp [handlerTask]⟩

/-- C1 (amended): only `change` events on the theme session invoke the
theme-reload action followed by the full rebuild; the theme watcher
registers no `add` or `unlink` handler, so those events provoke no
action. -/
theorem themeWatcher_only_change_triggers_rebuild (s : DState) (p : String)
    (h : s.themeHandlersRegistered = true) :
    handlerTask s { session := Session.theme, kind := EKind.change, path := p } =
      [SiteCall.readTheme, SiteCall.build] ∧
    handlerTask s { session := Session.theme, kind := EKind.add, path := p } = [] ∧
    handlerTask s { session := Session.theme, kind := EKind.unlink, path := p } = [] := by
  simp [handlerTask, h]

/-- Witness for the amended C1 at a concrete ready state and path. -/
theorem themeWatcher_only_change_triggers_rebuild_witness :
    ({ sourceHandlersRegistered := false, themeHandlersRegistered := true } : DState).themeHandlersRegistered = true ∧
    handlerTask { sourceHandlersRegistered := false, themeHandlersRegistered := true }
      { session := Session.theme, kind := EKind.change, path := "/themes/one/a.html" } =
      [SiteCall.readTheme, SiteCall.build] :=
  ⟨rfl, (themeWatcher_only_change_triggers_rebuild _ "/themes/one/a.html" rfl).1⟩

/-- C2 (counterexample): the claim that a failing `readFiles` prevents any
watch session from being created is false: when `readFiles` fails, the
failure is rethrown, yet both watchers are created and their `ready`
handlers registered, because the module body runs those statements
synchronously without waiting for the `readFiles` promise. -/
theorem watchers_created_despite_readFiles_failure :
    (runStartup true).readFilesFailureRethrown = true ∧
    (runStartup true).sourceWatcherCreated = true ∧
    (runStartup true).themeWatcherCreated = true ∧
    (runStartup true).sourceReadyHandlerRegistered = true ∧
    (runStartup true).themeReadyHandlerRegistered = true :=
  ⟨rfl, rfl, rfl, rfl, rfl⟩

/-- C2 (amended): whether or not the initial `readFiles` fails, startup
invokes it, rethrows its failure when there is one, and unconditionally
creates both watch sessions and registers their `ready` handlers; there is
no retry and no gating of watcher creation on the read's success. -/
theorem startup_unconditional (b : Bool) :
    runStartup b =
      { readFilesInvoked := true
      , readFilesFailureRethrown := b
      , sourceWatcherCreated := true
      , themeWatcherCreated := true
      , sourceReadyHandlerRegistered := true
      , themeReadyHandlerRegistered := true } := rfl

/-- C3: on a theme-session change event the dispatched chain is strictly
sequential: `readTheme` starts first, `build` starts only after
`readTheme` resolves, and `build` never starts when `readTheme`
rejects. -/
theorem theme_change_sequential (o : SiteCall → Bool) (s : DState) (p : String)
    (h : s.themeHandlersRegistered = true) :
    runTask o (handlerTask s { session := Session.theme, kind := EKind.change, path := p }) =
      if o SiteCall.readTheme then
        [(SiteCall.readTheme, true), (SiteCall.build, o SiteCall.build)]
      else
        [(SiteCall.readTheme, false)] := by
  simp only [handlerTask, h, if_true]
  by_cases ho : o SiteCall.readTheme <;> simp [runTask, ho]

/-- Witness for C3: with every action resolving, the theme change event
executes `readTheme` and then `build`, in that order. -/
theorem theme_change_sequential_witness :
    runTask (fun _ => true)
      (handlerTask { sourceHandlersRegistered := false, themeHandlersRegistered := true }
        { session := Session.theme, kind := EKind.change, path := "/themes/one/a.html" }) =
      [(SiteCall.readTheme, true), (SiteCall.build, true)] := by
  have h := theme_change_sequential (fun _ => true)
    { sourceHandlersRegistered := false, themeHandlersRegistered := true }
    "/themes/one/a.html" rfl
  simpa using h

/-- C4: a name is in the resolver's output iff it appears in the runtime or
development dependency list, starts with the convention prefix, and is
strictly longer than it (a bare prefix is excluded); on the dependency
lists of the unit test the result is exactly yarn-excerpt,
yarn-html-minifier and yarn-scaffold. -/
theorem getYarnPackageNames_spec :
    (∀ (pfx N : String) (runtimeDeps devDeps : List String),
      N ∈ getYarnPackageNames pfx runtimeDeps devDeps ↔
        (N ∈ runtimeDeps ∨ N ∈ devDeps) ∧
          pfx.data <+: N.data ∧ pfx.data.length < N.data.length) ∧
    getYarnPackageNames "yarn-" ["yarn-excerpt", "lodash"]
        ["yarn-html-minifier", "mocha", "yarn-scaffold"] =
      ["yarn-excerpt", "yarn-html-minifier", "yarn-scaffold"] := by
  constructor
  · intro pfx N runtimeDeps devDeps
    simp [getYarnPackageNames, mem_dedupFirst, List.mem_filter, List.mem_append,
      List.isPrefixOf_iff_prefix, and_assoc]
    tauto
  · decide

/-- C5: the dispatcher never acts on a source-session event whose path is
equal to or nested under an ignored root, and containment is
path-separator aligned: `/proj/src/theme-extra/file.txt` is not under the
root `/proj/src/theme`, while `/proj/src/theme/file.txt` is. -/
theorem ignored_roots_suppress_events (roots : List String) (s : DState)
    (k : EKind) (p : String) (h : isUnderIgnoredRoot p roots = true) :
    sourceSessionTask roots s { session := Session.source, kind := k, path := p } = [] ∧
    isUnderIgnoredRoot "/proj/src/theme-extra/file.txt" ["/proj/src/theme"] = false ∧
    isUnderIgnoredRoot "/proj/src/theme/file.txt" ["/proj/src/theme"] = true := by
  refine ⟨?_, by decide, by decide⟩
  simp [sourceSessionTask, h]

/-- Witness for C5 at a concrete ignored path. -/
theorem ignored_roots_suppress_events_witness :
    isUnderIgnoredRoot "/proj/src/theme/file.txt" ["/proj/src/theme"] = true ∧
    sourceSessionTask ["/proj/src/theme"]
      { sourceHandlersRegistered := true, themeHandlersRegistered := true }
      { session := Session.source, kind := EKind.change, path := "/proj/src/theme/file.txt" } = [] :=
  ⟨by decide, (ignored_roots_suppress_events _ _ _ _ (by decide)).1⟩

/-- C6: with the source session ready, each source event dispatches exactly
the one site action matching its kind — `add` invokes only
`fileAdded(path)`, `change` only `fileChanged(path)` and `unlink` only
`fileRemoved(path)`. -/
theorem source_event_dispatches_matching_action (s : DState) (p : String)
    (h : s.sourceHandlersRegistered = true) :
    handlerTask s { session := Session.source, kind := EKind.add, path := p } =
      [SiteCall.fileAdded p] ∧
    handlerTask s { session := Session.source, kind := EKind.change, path := p } =
      [SiteCall.fileChanged p] ∧
    handlerTask s { session := Session.source, kind := EKind.unlink, path := p } =
      [SiteCall.fileRemoved p] := by
  simp [handlerTask, h]

/-- Witness for C6: an `Added` event for /src/a.md invokes exactly one
`fileAdded` call. -/
theorem source_event_dispatches_matching_action_witness :
    ({ sourceHandlersRegistered := true, themeHandlersRegistered := false } : DState).sourceHandlersRegistered = true ∧
    handlerTask { sourceHandlersRegistered := true, themeHandlersRegistered := false }
      { session := Session.source, kind := EKind.add, path := "/src/a.md" } =
      [SiteCall.fileAdded "/src/a.md"] :=
  ⟨rfl, (source_event_dispatches_matching_action _ "/src/a.md" rfl).1⟩

/-- C7: for each session, no per-event handler is registered before that
session's `ready` signal: a trace without the source `ready` dispatches no
source per-file action, and a trace without the theme `ready` dispatches
no theme action. -/
theorem no_dispatch_before_ready (es : List WEvent) :
    ((∀ e ∈ es, e.session = Session.source → e.kind ≠ EKind.ready) →
      ∀ c ∈ runEvents initState es, isSourceAction c = false) ∧
    ((∀ e ∈ es, e.session = Session.theme → e.kind ≠ EKind.ready) →
      ∀ c ∈ runEvents initState es, isThemeAction c = false) := by
  constructor
  · intro hev
    exact runEvents_no_source_action es initState rfl hev
  · intro hev
    exact runEvents_no_theme_action es initState rfl hev

/-- Witness for C7 on a concrete trace with no source `ready` event. -/
theorem no_dispatch_before_ready_witness :
    (∀ e ∈ ([{ session := Session.source, kind := EKind.add, path := "/src/a.md" },
              { session := Session.theme, kind := EKind.change, path := "/themes/one/a.html" }] : List WEvent),
        e.session = Session.source → e.kind ≠ EKind.ready) ∧
    (∀ c ∈ runEvents initState
        [{ session := Session.source, kind := EKind.add, path := "/src/a.md" },
         { session := Session.theme, kind := EKind.change, path := "/themes/one/a.html" }],
      isSourceAction c = false) :=
  ⟨by decide, (no_dispatch_before_ready _).1 (by decide)⟩

/-- C8: after both sessions are ready, a rejecting `fileChanged` action
neither tears down the watch sessions nor is caught or retried: the next
event, of any kind and for any path, is dispatched exactly as the ready
state dictates, and both sessions remain registered. -/
theorem action_failure_keeps_watching (o : SiteCall → Bool) (p : String) (e : WEvent)
    (h : o (SiteCall.fileChanged p) = false) :
    runEventsExec o initState
        [{ session := Session.source, kind := EKind.ready, path := "" },
         { session := Session.theme, kind := EKind.ready, path := "" },
         { session := Session.source, kind := EKind.change, path := p }, e] =
      (SiteCall.fileChanged p, false) ::
        runTask o (handlerTask
          { sourceHandlersRegistered := true, themeHandlersRegistered := true } e) ∧
    List.foldl stepState initState
        [{ session := Session.source, kind := EKind.ready, path := "" },
         { session := Session.theme, kind := EKind.ready, path := "" },
         { session := Session.source, kind := EKind.change, path := p }, e] =
      { sourceHandlersRegistered := true, themeHandlersRegistered := true } := by
  constructor
  · simp [runEventsExec, runTask, handlerTask, stepState, initState, h]
  · rcases e with ⟨sess, k, q⟩
    cases sess <;> cases k <;> rfl

/-- Witness for C8: with `fileChanged(/src/b.md)` rejecting, a subsequent
`add` event for /src/c.md is still dispatched normally. -/
theorem action_failure_keeps_watching_witness :
    ((fun c => !(c == SiteCall.fileChanged "/src/b.md")) (SiteCall.fileChanged "/src/b.md") = false) ∧
    runEventsExec (fun c => !(c == SiteCall.fileChanged "/src/b.md")) initState
        [{ session := Session.source, kind := EKind.ready, path := "" },
         { session := Session.theme, kind := EKind.ready, path := "" },
         { session := Session.source, kind := EKind.change, path := "/src/b.md" },
         { session := Session.source, kind := EKind.add, path := "/src/c.md" }] =
      (SiteCall.fileChanged "/src/b.md", false) ::
        runTask (fun c => !(c == SiteCall.fileChanged "/src/b.md"))
          (handlerTask { sourceHandlersRegistered := true, themeHandlersRegistered := true }
            { session := Session.source, kind := EKind.add, path := "/src/c.md" }) :=
  ⟨by decide, (action_failure_keeps_watching _ "/src/b.md" _ (by decide)).1⟩

/-- C9: because the npm-module branch of `mockSimpleSite` passes its
key-mapping function under the misspelled option name `msapKey`,
`mirrorPathsToContent` falls back to the identity key mapping: every
npm-module path is its own key, and the intended node_modules rewrite —
which would have changed this concrete path — is never applied. -/
theorem npmMocks_keys_not_rewritten :
    (∀ (content : String → String) (paths : List String),
      npmMocks content paths = paths.map (fun p => (p, content p))) ∧
    npmKeyRewrite "/root/proj/node_modules/yarn-excerpt/index.js" =
      "node_modules/yarn-excerpt/index.js" ∧
    "/root/proj/node_modules/yarn-excerpt/index.js" ≠
      ("node_modules/yarn-excerpt/index.js" : String) := by
  refine ⟨?_, by decide, by decide⟩
  intro content paths
  simp [npmMocks, mirrorPathsToContent]

/-- C10: `filterOnlyFiles` keeps exactly the entries whose key contains the
substring `.html`, values unchanged; a `.json` key without `.html` in it
is not retained, despite the function's documentation mentioning
`.json`. -/
theorem filterOnlyFiles_spec :
    (∀ (files : List (String × String)) (k v : String),
      (k, v) ∈ filterOnlyFiles files ↔
        (k, v) ∈ files ∧ ".html".data <:+: k.data) ∧
    filterOnlyFiles [("index.html", "a"), ("data.json", "b")] = [("index.html", "a")] := by
  refine ⟨?_, by decide⟩
  intro files k v
  simp [filterOnlyFiles, List.mem_filter, containsSubstr, containsSub_iff]
